import Mathlib

/-!
Verification of the audify-plus loader scripts (src/index.js, src/postinstall.js).

The JavaScript sources are shallowly embedded: the runtime environment
(os.platform / os.arch) is an explicit `Env` value, the file system is an
explicit `FS` value, a thrown JavaScript `Error` is the `.error` case of
`Except String` carrying the message, and a JavaScript object is an
association list `List (String × JVal)` so that field *names* are data.
Console output is modelled as a `List LogEntry` where a claim depends on it
and omitted (as a pure side channel) where none does.
-/

set_option autoImplicit false

namespace Audify

/-- The runtime environment seen by the scripts: the strings returned by
`os.platform()` and `os.arch()`. -/
structure Env where
  platform : String
  arch : String
deriving DecidableEq

/-- File-system state visible to the scripts: for each path, whether it
exists (`fs.existsSync`), whether it is readable (`fs.accessSync` with
`R_OK` succeeds), its permission mode bits (read and set by
`fs.chmodSync`), and whether `fs.chmodSync` on it raises (e.g. `EPERM`
when the process does not own the file). -/
structure FS where
  fileExists : String → Bool
  readable : String → Bool
  mode : String → Nat
  chmodFails : String → Bool

/-- One console line: `console.log` or `console.error` (the code joins the
extra arguments of `console.error` into the message with a space). -/
inductive LogEntry where
  | log (msg : String)
  | error (msg : String)
deriving DecidableEq, Repr

/-- JavaScript values, as far as the loader surface needs them: strings,
booleans, numbers, the exported constant tables (string-keyed integer
records), and an opaque callable. -/
inductive JVal where
  | str (s : String)
  | bool (b : Bool)
  | num (n : Nat)
  | table (t : List (String × Nat))
  | func
deriving DecidableEq, Repr

/-- Field lookup on a JavaScript object (first binding wins, as the
association lists built here never repeat a key). -/
def objLookup (o : List (String × JVal)) (k : String) : Option JVal :=
  (o.find? (fun kv => kv.1 == k)).map (fun kv => kv.2)

/-- Whether a JavaScript object has a field named `k` (`k in o`). -/
def objHas (o : List (String × JVal)) (k : String) : Bool :=
  o.any (fun kv => kv.1 == k)

/-- Property assignment `o[k] = v`: overwrites the binding when the key is
present, appends it otherwise — the key set only grows. -/
def objSet (o : List (String × JVal)) (k : String) (v : JVal) : List (String × JVal) :=
  if objHas o k then
    o.map (fun kv => if kv.1 == k then (k, v) else kv)
  else
    o ++ [(k, v)]

/-- `PLATFORM_MAP` from src/index.js lines 16-25: the static table from
platform key to prebuild directory. -/
def PLATFORM_MAP : List (String × String) :=
  [("win32-x64", "win32-x64"),
   ("win32-ia32", "win32-ia32"),
   ("win32-arm64", "win32-arm64"),
   ("darwin-x64", "darwin-x64"),
   ("darwin-arm64", "darwin-arm64"),
   ("linux-x64", "linux-x64"),
   ("linux-arm64", "linux-arm64"),
   ("linux-arm", "linux-arm")]

/-- `PLATFORM_MAP[key]` (JavaScript property read; `none` models
`undefined`). -/
def lookupPlatform (key : String) : Option String :=
  (PLATFORM_MAP.find? (fun kv => kv.1 == key)).map (fun kv => kv.2)

/-- `Object.keys(PLATFORM_MAP)`. -/
def supportedKeys : List String :=
  PLATFORM_MAP.map (fun kv => kv.1)

/-- `Object.keys(PLATFORM_MAP).join(", ")` from src/index.js line 96. -/
def supportedKeysStr : String :=
  String.intercalate ", " supportedKeys

/-- The platform key `platform-arch` built at src/index.js line 90. -/
def platformKey (env : Env) : String :=
  env.platform ++ "-" ++ env.arch

/-- The message of the error thrown at src/index.js lines 97-100. -/
def unsupportedPlatformMsg (key : String) : String :=
  "[Audify-JS-Plus] Unsupported platform: " ++ key ++
    ". Supported platforms: " ++ supportedKeysStr

/-- Node `path.join` on plain segments (POSIX separator): interleave the
separator between the segments. -/
def pathJoin : List String → String
  | [] => ""
  | [x] => x
  | x :: xs => x ++ "/" ++ pathJoin xs

/-- `getBinaryPath` from src/index.js lines 87-114, parametrised by
`__dirname` and the environment.  Resolves the platform key, fails with the
unsupported-platform error when the table has no entry, and otherwise joins
`__dirname/prebuilds/<folder>/build/Release/audify.node`.  Its two
`console.log` lines are a pure side channel no claim mentions and are
omitted. -/
def getBinaryPath (dirname : String) (env : Env) : Except String String :=
  let key := platformKey env
  match lookupPlatform key with
  | none => .error (unsupportedPlatformMsg key)
  | some platformFolder =>
      .ok (pathJoin [dirname, "prebuilds", platformFolder, "build", "Release", "audify.node"])

/-- The message of the error Node raises when `fs.accessSync(p, R_OK)` is
denied (`EACCES: permission denied, access p`); the path is part of the
runtime message. -/
def accessErrorMsg (p : String) : String :=
  "EACCES: permission denied, access " ++ p

/-- The `console.error` message at src/index.js line 124. -/
def binaryNotFoundMsg (p : String) : String :=
  "[Audify-JS-Plus] Binary not found: " ++ p

/-- The `console.log` message at src/index.js line 130. -/
def binaryVerifiedMsg (p : String) : String :=
  "[Audify-JS-Plus] Binary verified: " ++ p

/-- The `console.error` message at src/index.js line 133, joined with the
caught error message. -/
def verificationFailedMsg (m : String) : String :=
  "[Audify-JS-Plus] Binary verification failed: " ++ m

/-- The body of the `try` block of `verifyBinary` (src/index.js lines
122-131): return `false` with a not-found log when the path does not exist,
otherwise let `fs.accessSync` throw when the file is unreadable, otherwise
return `true` with a verified log. -/
def verifyBinaryTry (fs : FS) (binaryPath : String) : Except String (Bool × List LogEntry) :=
  if !(fs.fileExists binaryPath) then
    .ok (false, [.error (binaryNotFoundMsg binaryPath)])
  else if fs.readable binaryPath then
    .ok (true, [.log (binaryVerifiedMsg binaryPath)])
  else
    .error (accessErrorMsg binaryPath)

/-- `verifyBinary` from src/index.js lines 121-136: the `try` body with its
`catch` clause, which logs the caught message and returns `false`. -/
def verifyBinary (fs : FS) (binaryPath : String) : Bool × List LogEntry :=
  match verifyBinaryTry fs binaryPath with
  | .ok r => r
  | .error e => (false, [.error (verificationFailedMsg e)])

/-- The body of the `try` block of `healthCheck` (src/index.js lines
226-234): resolve the binary path (which may throw), verify it, and build
the report object. -/
def healthCheckTry (dirname : String) (env : Env) (fs : FS) :
    Except String (List (String × JVal)) :=
  match getBinaryPath dirname env with
  | .error e => .error e
  | .ok binaryPath =>
      let ex := (verifyBinary fs binaryPath).1
      .ok [("status", .str (if ex then "healthy" else "unhealthy")),
           ("platform", .str (platformKey env)),
           ("binaryPath", .str binaryPath),
           ("binaryExists", .bool ex)]

/-- `healthCheck` from src/index.js lines 225-242: the `try` body with its
`catch` clause, which converts any thrown error into the error report. -/
def healthCheck (dirname : String) (env : Env) (fs : FS) : List (String × JVal) :=
  match healthCheckTry dirname env fs with
  | .ok r => r
  | .error e =>
      [("status", .str "error"),
       ("error", .str e),
       ("platform", .str (platformKey env))]

/-- `OpusApplication` from src/index.js lines 28-32. -/
def OpusApplication : List (String × Nat) :=
  [("OPUS_APPLICATION_VOIP", 2048),
   ("OPUS_APPLICATION_AUDIO", 2049),
   ("OPUS_APPLICATION_RESTRICTED_LOWDELAY", 2051)]

/-- `RtAudioApi` from src/index.js lines 35-46. -/
def RtAudioApi : List (String × Nat) :=
  [("RTAUDIO_API_UNSPECIFIED", 0),
   ("RTAUDIO_API_LINUX_ALSA", 1),
   ("RTAUDIO_API_LINUX_PULSE", 2),
   ("RTAUDIO_API_LINUX_OSS", 3),
   ("RTAUDIO_API_UNIX_JACK", 4),
   ("RTAUDIO_API_MACOSX_CORE", 5),
   ("RTAUDIO_API_WINDOWS_WASAPI", 6),
   ("RTAUDIO_API_WINDOWS_ASIO", 7),
   ("RTAUDIO_API_WINDOWS_DS", 8),
   ("RTAUDIO_API_RTAUDIO_DUMMY", 9)]

/-- `RtAudioFormat` from src/index.js lines 49-56. -/
def RtAudioFormat : List (String × Nat) :=
  [("RTAUDIO_FORMAT_SINT8", 1),
   ("RTAUDIO_FORMAT_SINT16", 2),
   ("RTAUDIO_FORMAT_SINT24", 4),
   ("RTAUDIO_FORMAT_SINT32", 8),
   ("RTAUDIO_FORMAT_FLOAT32", 16),
   ("RTAUDIO_FORMAT_FLOAT64", 32)]

/-- `RtAudioStreamFlags` from src/index.js lines 59-66. -/
def RtAudioStreamFlags : List (String × Nat) :=
  [("RTAUDIO_FLAGS_NONINTERLEAVED", 1),
   ("RTAUDIO_FLAGS_MINIMIZE_LATENCY", 2),
   ("RTAUDIO_FLAGS_HOG_DEVICE", 4),
   ("RTAUDIO_FLAGS_SCHEDULE_REALTIME", 8),
   ("RTAUDIO_FLAGS_ALSA_USE_DEFAULT", 16),
   ("RTAUDIO_FLAGS_JACK_DONT_CONNECT", 32)]

/-- `RtAudioErrorType` from src/index.js lines 69-81. -/
def RtAudioErrorType : List (String × Nat) :=
  [("RTAUDIO_ERROR_WARNING", 0),
   ("RTAUDIO_ERROR_DEBUG_WARNING", 1),
   ("RTAUDIO_ERROR_UNSPECIFIED", 2),
   ("RTAUDIO_ERROR_NO_DEVICES_FOUND", 3),
   ("RTAUDIO_ERROR_INVALID_DEVICE", 4),
   ("RTAUDIO_ERROR_MEMORY_ERROR", 5),
   ("RTAUDIO_ERROR_INVALID_PARAMETER", 6),
   ("RTAUDIO_ERROR_INVALID_USE", 7),
   ("RTAUDIO_ERROR_DRIVER_ERROR", 8),
   ("RTAUDIO_ERROR_SYSTEM_ERROR", 9),
   ("RTAUDIO_ERROR_THREAD_ERROR", 10)]

/-- `withErrorHandling` from src/index.js lines 190-199: the wrapped
function forwards the call, and on a thrown error logs the function name
with the error before re-throwing the identical error.  The first
component of the result is the outcome, the second is the console output of
the wrapper itself. -/
def withErrorHandling {α β : Type} (fn : α → Except String β) (functionName : String) :
    α → Except String β × List LogEntry :=
  fun args =>
    match fn args with
    | .ok v => (.ok v, [])
    | .error e =>
        (.error e, [.error ("[Audify-JS-Plus] Error in " ++ functionName ++ ": " ++ e)])

/-- The fixed fields assigned by the object literal at src/index.js lines
202-243 after the `...rawAudify` spread: the five constant tables,
`getPlatformInfo`, the package version, and `healthCheck`.  The two utility
closures are opaque callables here. -/
def fixedEntries : List (String × JVal) :=
  [("OpusApplication", .table OpusApplication),
   ("RtAudioApi", .table RtAudioApi),
   ("RtAudioFormat", .table RtAudioFormat),
   ("RtAudioStreamFlags", .table RtAudioStreamFlags),
   ("RtAudioErrorType", .table RtAudioErrorType),
   ("getPlatformInfo", JVal.func),
   ("version", .str "2.0.1"),
   ("healthCheck", JVal.func)]

/-- One step of the `Object.keys(rawAudify).forEach` loop at src/index.js
lines 246-252: when the value of the raw module at `k` is callable, re-assign
key `k` to its `withErrorHandling` wrapper — still a callable, so modelled
as `JVal.func` again; otherwise leave the object unchanged. -/
def wrapStep (raw : List (String × JVal)) (o : List (String × JVal)) (k : String) :
    List (String × JVal) :=
  match objLookup raw k with
  | some JVal.func => objSet o k JVal.func
  | _ => o

/-- `audifyExports` from src/index.js lines 202-252, over an arbitrary raw
native module `raw`: spread the raw module, assign the fixed fields, then
run the wrapping loop over the keys of the raw module. -/
def audifyExports (raw : List (String × JVal)) : List (String × JVal) :=
  let base := fixedEntries.foldl (fun o kv => objSet o kv.1 kv.2) raw
  (raw.map (fun kv => kv.1)).foldl (wrapStep raw) base

/-- The message of the error Node raises when `fs.chmodSync(p, m)` is not
permitted (`EPERM: operation not permitted, chmod p`). -/
def chmodErrorMsg (p : String) : String :=
  "EPERM: operation not permitted, chmod " ++ p

/-- `fs.chmodSync(p, m)`: raise when the state denies the change (e.g.
`EPERM`), otherwise set the mode bits of `p`, leaving every other path and
every other aspect of the state unchanged. -/
def chmodSync (fs : FS) (p : String) (m : Nat) : Except String FS :=
  if fs.chmodFails p then
    .error (chmodErrorMsg p)
  else
    .ok { fs with mode := fun q => if q == p then m else fs.mode q }

/-- The body of the `try` block of `setBinaryPermissions`
(src/postinstall.js lines 59-68): return `false` when the file does not
exist, otherwise `chmodSync` it to `0o755` (which may throw) and return
`true`.  Result: the reported boolean and the resulting file-system
state. -/
def setBinaryPermissionsTry (fs : FS) (binaryPath : String) :
    Except String (Bool × FS) :=
  if !(fs.fileExists binaryPath) then
    .ok (false, fs)
  else
    match chmodSync fs binaryPath 0o755 with
    | .error e => .error e
    | .ok fs2 => .ok (true, fs2)

/-- `setBinaryPermissions` from src/postinstall.js lines 52-73: on
`win32` (checked before the `try`) return `true` without touching the file
system; otherwise run the `try` body, whose `catch` clause (lines 69-72)
logs the caught message and returns `false`. -/
def setBinaryPermissions (osPlatform : String) (fs : FS) (binaryPath : String) :
    Bool × FS :=
  if osPlatform == "win32" then
    (true, fs)
  else
    match setBinaryPermissionsTry fs binaryPath with
    | .ok r => r
    | .error _ => (false, fs)

/-- Property read on a constant table (`Table.NAME` in JavaScript). -/
def tblLookup (t : List (String × Nat)) (k : String) : Option Nat :=
  (t.find? (fun kv => kv.1 == k)).map (fun kv => kv.2)

/-- Fixture: a file system where every path exists, is readable, and may
be chmodded. -/
def fsFull : FS :=
  { fileExists := fun _ => true, readable := fun _ => true, mode := fun _ => 0o644,
    chmodFails := fun _ => false }

/-- Fixture: a file system where no path exists. -/
def fsMissing : FS :=
  { fileExists := fun _ => false, readable := fun _ => false, mode := fun _ => 0,
    chmodFails := fun _ => false }

/-- Fixture: a file system where every path exists but none is readable. -/
def fsUnreadable : FS :=
  { fileExists := fun _ => true, readable := fun _ => false, mode := fun _ => 0o200,
    chmodFails := fun _ => false }

/-- Fixture: a file system where every path exists and is readable but
`chmodSync` raises `EPERM` (the process owns no file). -/
def fsChmodDenied : FS :=
  { fileExists := fun _ => true, readable := fun _ => true, mode := fun _ => 0o644,
    chmodFails := fun _ => true }

/-- Fixture: a small raw native module surface. -/
def rawSample : List (String × JVal) :=
  [("OpusEncoder", JVal.func), ("RtAudio", JVal.func), ("abi", JVal.num 9)]

/-- Fixture: a native callable that throws on `0` and succeeds otherwise. -/
def sampleFn (n : Nat) : Except String Nat :=
  if n = 0 then .error "boom" else .ok (n + 1)

end Audify

namespace Audify

theorem pathJoin_prebuilds (d f : String) :
    pathJoin [d, "prebuilds", f, "build", "Release", "audify.node"] =
      (d ++ "/prebuilds/") ++ (f ++ "/build/Release/audify.node") := by
  simp only [pathJoin, String.append_assoc]
  rfl

theorem getBinaryPath_supported (d : String) (env : Env) (folder : String)
    (h : lookupPlatform (platformKey env) = some folder) :
    getBinaryPath d env =
      .ok ((d ++ "/prebuilds/") ++ (folder ++ "/build/Release/audify.node")) := by
  simp only [getBinaryPath, h, pathJoin_prebuilds]

theorem getBinaryPath_unsupported (d : String) (env : Env)
    (h : lookupPlatform (platformKey env) = none) :
    getBinaryPath d env = .error (unsupportedPlatformMsg (platformKey env)) := by
  simp only [getBinaryPath, h]

theorem mem_supportedKeysStr (k : String) (hk : k ∈ supportedKeys) :
    ∃ x y, supportedKeysStr = x ++ k ++ y := by
  simp only [supportedKeys, PLATFORM_MAP, List.map, List.mem_cons, List.not_mem_nil, or_false] at hk
  rcases hk with rfl | rfl | rfl | rfl | rfl | rfl | rfl | rfl
  · exact ⟨"", ", win32-ia32, win32-arm64, darwin-x64, darwin-arm64, linux-x64, linux-arm64, linux-arm", by decide⟩
  · exact ⟨"win32-x64, ", ", win32-arm64, darwin-x64, darwin-arm64, linux-x64, linux-arm64, linux-arm", by decide⟩
  · exact ⟨"win32-x64, win32-ia32, ", ", darwin-x64, darwin-arm64, linux-x64, linux-arm64, linux-arm", by decide⟩
  · exact ⟨"win32-x64, win32-ia32, win32-arm64, ", ", darwin-arm64, linux-x64, linux-arm64, linux-arm", by decide⟩
  · exact ⟨"win32-x64, win32-ia32, win32-arm64, darwin-x64, ", ", linux-x64, linux-arm64, linux-arm", by decide⟩
  · exact ⟨"win32-x64, win32-ia32, win32-arm64, darwin-x64, darwin-arm64, ", ", linux-arm64, linux-arm", by decide⟩
  · exact ⟨"win32-x64, win32-ia32, win32-arm64, darwin-x64, darwin-arm64, linux-x64, ", ", linux-arm", by decide⟩
  · exact ⟨"win32-x64, win32-ia32, win32-arm64, darwin-x64, darwin-arm64, linux-x64, linux-arm64, ", "", by decide⟩

theorem unsupportedPlatformMsg_names_key (key : String) :
    ∃ a b, unsupportedPlatformMsg key = a ++ key ++ b ∧
      b = ". Supported platforms: " ++ supportedKeysStr := by
  refine ⟨"[Audify-JS-Plus] Unsupported platform: ",
    ". Supported platforms: " ++ supportedKeysStr, ?_, rfl⟩
  simp only [unsupportedPlatformMsg, String.append_assoc]

theorem unsupportedPlatformMsg_ne_empty (key : String) :
    unsupportedPlatformMsg key ≠ "" := by
  intro h
  have h2 := congrArg String.length h
  simp only [unsupportedPlatformMsg, String.length_append] at h2
  have h3 : ("[Audify-JS-Plus] Unsupported platform: ").length = 39 := by decide
  have h4 : ("" : String).length = 0 := by decide
  omega

/-- C1: for every environment whose platform key is in the static table,
`getBinaryPath` returns a path ending in the mapped directory followed by
the fixed suffix `build/Release/audify.node`; for every environment whose
key is not in the table, it fails with an error whose message names that
exact key and the full set of supported keys. -/
theorem getBinaryPath_spec (dirname : String) (env : Env) :
    (∀ folder, lookupPlatform (platformKey env) = some folder →
      ∃ p, getBinaryPath dirname env = .ok p ∧
        ∃ a, p = a ++ (folder ++ "/build/Release/audify.node")) ∧
    (lookupPlatform (platformKey env) = none →
      getBinaryPath dirname env = .error (unsupportedPlatformMsg (platformKey env)) ∧
      (∃ a b, unsupportedPlatformMsg (platformKey env) = a ++ platformKey env ++ b ∧
        b = ". Supported platforms: " ++ supportedKeysStr) ∧
      (∀ k, k ∈ supportedKeys → ∃ x y, supportedKeysStr = x ++ k ++ y)) := by
  constructor
  · intro folder h
    exact ⟨_, getBinaryPath_supported dirname env folder h, ⟨dirname ++ "/prebuilds/", rfl⟩⟩
  · intro h
    exact ⟨getBinaryPath_unsupported dirname env h,
      unsupportedPlatformMsg_names_key (platformKey env),
      mem_supportedKeysStr⟩

/-- Witness for C1 at the concrete environment linux-x64 and base
directory `/app`. -/
theorem getBinaryPath_spec_witness :
    ∃ p, getBinaryPath "/app" ⟨"linux", "x64"⟩ = .ok p ∧
      ∃ a, p = a ++ ("linux-x64" ++ "/build/Release/audify.node") :=
  (getBinaryPath_spec "/app" ⟨"linux", "x64"⟩).1 "linux-x64" (by decide)

end Audify

namespace Audify

theorem verifyBinary_fst_iff (fs : FS) (p : String) :
    (verifyBinary fs p).1 = true ↔ fs.fileExists p = true ∧ fs.readable p = true := by
  cases he : fs.fileExists p <;> cases hr : fs.readable p <;>
    simp [verifyBinary, verifyBinaryTry, he, hr]

/-- C4 counterexample: the platform table has eight entries, not nine, so
the unsupported-platform message for `freebsd-x64` cannot list nine
supported keys. -/
theorem PLATFORM_MAP_not_nine :
    getBinaryPath "/app" ⟨"freebsd", "x64"⟩ = .error (unsupportedPlatformMsg "freebsd-x64") ∧
    PLATFORM_MAP.length = 8 ∧ ¬ PLATFORM_MAP.length = 9 :=
  ⟨rfl, by decide, by decide⟩

/-- C4 (amended): with OS `freebsd` and arch `x64`, path resolution fails
with the unsupported-platform error naming the attempted key, the platform
table has exactly eight entries, and every one of the eight supported keys
appears in the message. -/
theorem freebsd_unsupported_eight (dirname : String) :
    getBinaryPath dirname ⟨"freebsd", "x64"⟩ = .error (unsupportedPlatformMsg "freebsd-x64") ∧
    PLATFORM_MAP.length = 8 ∧
    (∃ a b, unsupportedPlatformMsg "freebsd-x64" = a ++ "freebsd-x64" ++ b ∧
      b = ". Supported platforms: " ++ supportedKeysStr) ∧
    (∀ k, k ∈ supportedKeys → ∃ x y, supportedKeysStr = x ++ k ++ y) :=
  ⟨getBinaryPath_unsupported dirname ⟨"freebsd", "x64"⟩ rfl, by decide,
    unsupportedPlatformMsg_names_key "freebsd-x64", mem_supportedKeysStr⟩

/-- Witness for the amended C4 at base directory `/app`, checking that the
supported key `linux-arm` appears in the message tail. -/
theorem freebsd_unsupported_eight_witness :
    getBinaryPath "/app" ⟨"freebsd", "x64"⟩ = .error (unsupportedPlatformMsg "freebsd-x64") ∧
    ∃ x y, supportedKeysStr = x ++ "linux-arm" ++ y :=
  ⟨(freebsd_unsupported_eight "/app").1,
   (freebsd_unsupported_eight "/app").2.2.2 "linux-arm" (by decide)⟩

/-- C5: `verifyBinary` succeeds exactly when the path exists and is
readable; a missing path yields `false` with the not-found error log
carrying the path, an existing but unreadable path yields `false` with the
distinct verification-failed error log whose caught message carries the
path, and the two failure messages are distinct. -/
theorem verifyBinary_spec (fs : FS) (p : String) :
    ((verifyBinary fs p).1 = true ↔ fs.fileExists p = true ∧ fs.readable p = true) ∧
    (fs.fileExists p = false →
      verifyBinary fs p = (false, [.error (binaryNotFoundMsg p)])) ∧
    (fs.fileExists p = true → fs.readable p = false →
      verifyBinary fs p = (false, [.error (verificationFailedMsg (accessErrorMsg p))])) ∧
    (∃ a, binaryNotFoundMsg p = a ++ p) ∧
    (∃ a, verificationFailedMsg (accessErrorMsg p) = a ++ p) ∧
    binaryNotFoundMsg p ≠ verificationFailedMsg (accessErrorMsg p) := by
  refine ⟨verifyBinary_fst_iff fs p, ?_, ?_, ⟨"[Audify-JS-Plus] Binary not found: ", rfl⟩, ?_, ?_⟩
  · intro he
    simp [verifyBinary, verifyBinaryTry, he]
  · intro he hr
    simp [verifyBinary, verifyBinaryTry, he, hr]
  · exact ⟨"[Audify-JS-Plus] Binary verification failed: " ++ "EACCES: permission denied, access ",
      (String.append_assoc _ _ p).symm⟩
  · intro h
    have h2 := congrArg String.length h
    simp only [binaryNotFoundMsg, verificationFailedMsg, accessErrorMsg,
      String.length_append] at h2
    have h3 : ("[Audify-JS-Plus] Binary not found: ").length = 35 := by decide
    have h4 : ("[Audify-JS-Plus] Binary verification failed: ").length = 45 := by decide
    omega

/-- Witness for C5: an existing but unreadable path fails with the
verification-failed log. -/
theorem verifyBinary_spec_witness :
    verifyBinary fsUnreadable "bin" =
      (false, [.error (verificationFailedMsg (accessErrorMsg "bin"))]) :=
  (verifyBinary_spec fsUnreadable "bin").2.2.1 rfl rfl

/-- C10: `verifyBinary` is the `catch`-completion of its `try` body: when
the body returns, `verifyBinary` returns the same value, and when the body
throws (the readability check raising), the error is caught and the
function returns `false` instead of propagating the exception. -/
theorem verifyBinary_total (fs : FS) (p : String) :
    (∀ r, verifyBinaryTry fs p = .ok r → verifyBinary fs p = r) ∧
    (∀ e, verifyBinaryTry fs p = .error e →
      verifyBinary fs p = (false, [.error (verificationFailedMsg e)])) := by
  constructor
  · intro r h
    simp [verifyBinary, h]
  · intro e h
    simp [verifyBinary, h]

/-- Witness for C10: a missing path makes the `try` body return normally
and `verifyBinary` forwards that result. -/
theorem verifyBinary_total_witness :
    verifyBinary fsMissing "a" = (false, [.error (binaryNotFoundMsg "a")]) :=
  (verifyBinary_total fsMissing "a").1 (false, [.error (binaryNotFoundMsg "a")]) rfl

/-- C7: the exported constant tables hold the documented fixed integers:
the codec AUDIO application mode is 2049, and the six sample-format
identifiers are the pairwise-distinct powers of two 1, 2, 4, 8, 16, 32,
with FLOAT64 equal to 32. -/
theorem constants_spec :
    tblLookup OpusApplication "OPUS_APPLICATION_AUDIO" = some 2049 ∧
    tblLookup RtAudioFormat "RTAUDIO_FORMAT_SINT8" = some 1 ∧
    tblLookup RtAudioFormat "RTAUDIO_FORMAT_SINT16" = some 2 ∧
    tblLookup RtAudioFormat "RTAUDIO_FORMAT_SINT24" = some 4 ∧
    tblLookup RtAudioFormat "RTAUDIO_FORMAT_SINT32" = some 8 ∧
    tblLookup RtAudioFormat "RTAUDIO_FORMAT_FLOAT32" = some 16 ∧
    tblLookup RtAudioFormat "RTAUDIO_FORMAT_FLOAT64" = some 32 ∧
    RtAudioFormat.map (fun kv => kv.2) = [1, 2, 4, 8, 16, 32] ∧
    (RtAudioFormat.map (fun kv => kv.2)).Pairwise (fun a b => a ≠ b) ∧
    ((1 : Nat) = 2 ^ 0 ∧ (2 : Nat) = 2 ^ 1 ∧ (4 : Nat) = 2 ^ 2 ∧
     (8 : Nat) = 2 ^ 3 ∧ (16 : Nat) = 2 ^ 4 ∧ (32 : Nat) = 2 ^ 5) := by
  decide

end Audify

namespace Audify

theorem healthCheck_supported (d : String) (env : Env) (fs : FS) (p : String)
    (h : getBinaryPath d env = .ok p) :
    healthCheck d env fs =
      [("status", .str (if (verifyBinary fs p).1 then "healthy" else "unhealthy")),
       ("platform", .str (platformKey env)),
       ("binaryPath", .str p),
       ("binaryExists", .bool (verifyBinary fs p).1)] := by
  simp [healthCheck, healthCheckTry, h]

theorem healthCheck_unsupported (d : String) (env : Env) (fs : FS) (e : String)
    (h : getBinaryPath d env = .error e) :
    healthCheck d env fs =
      [("status", .str "error"), ("error", .str e), ("platform", .str (platformKey env))] := by
  simp [healthCheck, healthCheckTry, h]

/-- C2: `healthCheck` never raises (it is the total `catch`-completion of
its `try` body) and always produces a report whose status is `healthy`,
`unhealthy` or `error`: `healthy` when the platform key is supported and
the resolved artifact exists and is readable, `unhealthy` when the key is
supported but the artifact is absent or unreadable, and `error` with a
non-empty error message when the key is unsupported. -/
theorem healthCheck_status_spec (dirname : String) (env : Env) (fs : FS) :
    (∃ s, objLookup (healthCheck dirname env fs) "status" = some (.str s) ∧
      (s = "healthy" ∨ s = "unhealthy" ∨ s = "error")) ∧
    (∀ folder, lookupPlatform (platformKey env) = some folder →
      ∀ p, getBinaryPath dirname env = .ok p →
        ((fs.fileExists p = true ∧ fs.readable p = true →
            objLookup (healthCheck dirname env fs) "status" = some (.str "healthy")) ∧
         (¬(fs.fileExists p = true ∧ fs.readable p = true) →
            objLookup (healthCheck dirname env fs) "status" = some (.str "unhealthy")))) ∧
    (lookupPlatform (platformKey env) = none →
      objLookup (healthCheck dirname env fs) "status" = some (.str "error") ∧
      ∃ m, objLookup (healthCheck dirname env fs) "error" = some (.str m) ∧ m ≠ "") := by
  cases hl : lookupPlatform (platformKey env) with
  | none =>
    have hg := getBinaryPath_unsupported dirname env hl
    have hr := healthCheck_unsupported dirname env fs _ hg
    refine ⟨⟨"error", by rw [hr]; rfl, Or.inr (Or.inr rfl)⟩, ?_, ?_⟩
    · intro folder hf
      cases hf
    · intro _
      exact ⟨by rw [hr]; rfl,
        ⟨unsupportedPlatformMsg (platformKey env), by rw [hr]; rfl,
         unsupportedPlatformMsg_ne_empty _⟩⟩
  | some folder =>
    have hg := getBinaryPath_supported dirname env folder hl
    have hr := healthCheck_supported dirname env fs _ hg
    constructor
    · cases hx : (verifyBinary fs
        ((dirname ++ "/prebuilds/") ++ (folder ++ "/build/Release/audify.node"))).1 with
      | true => exact ⟨"healthy", by rw [hr]; simp [hx, objLookup], Or.inl rfl⟩
      | false => exact ⟨"unhealthy", by rw [hr]; simp [hx, objLookup], Or.inr (Or.inl rfl)⟩
    constructor
    · intro folder2 _ p hp
      rw [hg] at hp
      injection hp with hp
      subst hp
      constructor
      · intro hok
        have hx : (verifyBinary fs
            ((dirname ++ "/prebuilds/") ++ (folder ++ "/build/Release/audify.node"))).1 = true :=
          (verifyBinary_fst_iff fs _).2 hok
        rw [hr]
        simp [hx, objLookup]
      · intro hbad
        have hx : (verifyBinary fs
            ((dirname ++ "/prebuilds/") ++ (folder ++ "/build/Release/audify.node"))).1 = false := by
          cases hx2 : (verifyBinary fs
              ((dirname ++ "/prebuilds/") ++ (folder ++ "/build/Release/audify.node"))).1 with
          | false => rfl
          | true => exact absurd ((verifyBinary_fst_iff fs _).1 hx2) hbad
        rw [hr]
        simp [hx, objLookup]
    · intro h
      cases h

/-- Witness for C2 at linux-x64 with the artifact present and readable. -/
theorem healthCheck_status_spec_witness :
    objLookup (healthCheck "/app" ⟨"linux", "x64"⟩ fsFull) "status" = some (.str "healthy") :=
  (((healthCheck_status_spec "/app" ⟨"linux", "x64"⟩ fsFull).2.1 "linux-x64" rfl
    "/app/prebuilds/linux-x64/build/Release/audify.node" rfl).1) ⟨rfl, rfl⟩

/-- C3 counterexample: in the healthy case the report has no field named
`artifactPath` or `artifactExists` — the code names these fields
`binaryPath` and `binaryExists`. -/
theorem healthCheck_artifact_fields_cex :
    objLookup (healthCheck "/app2" ⟨"linux", "x64"⟩ fsFull) "status" = some (.str "healthy") ∧
    objLookup (healthCheck "/app2" ⟨"linux", "x64"⟩ fsFull) "artifactPath" = none ∧
    objLookup (healthCheck "/app2" ⟨"linux", "x64"⟩ fsFull) "artifactExists" = none := by
  decide

/-- C3 (amended): every report has the shape
`{status, platform, binaryPath, binaryExists}` for a supported platform —
`binaryPath` holding the resolved path string and `binaryExists` a boolean,
with `binaryExists: true` in the healthy case — and the shape
`{status, error, platform}` for an unsupported platform. -/
theorem healthCheck_report_shape (dirname : String) (env : Env) (fs : FS) :
    (∀ p, getBinaryPath dirname env = .ok p →
      (healthCheck dirname env fs).map (fun kv => kv.1) =
        ["status", "platform", "binaryPath", "binaryExists"] ∧
      objLookup (healthCheck dirname env fs) "binaryPath" = some (.str p) ∧
      objLookup (healthCheck dirname env fs) "binaryExists" =
        some (.bool (verifyBinary fs p).1) ∧
      ((verifyBinary fs p).1 = true →
        objLookup (healthCheck dirname env fs) "status" = some (.str "healthy") ∧
        objLookup (healthCheck dirname env fs) "binaryExists" = some (.bool true))) ∧
    (∀ e, getBinaryPath dirname env = .error e →
      (healthCheck dirname env fs).map (fun kv => kv.1) = ["status", "error", "platform"] ∧
      objLookup (healthCheck dirname env fs) "error" = some (.str e)) := by
  constructor
  · intro p hp
    have hr := healthCheck_supported dirname env fs p hp
    rw [hr]
    refine ⟨rfl, rfl, rfl, ?_⟩
    intro hx
    rw [hx]
    exact ⟨rfl, rfl⟩
  · intro e he
    have hr := healthCheck_unsupported dirname env fs e he
    rw [hr]
    exact ⟨rfl, rfl⟩

/-- Witness for the amended C3 at linux-x64 with the artifact present. -/
theorem healthCheck_report_shape_witness :
    objLookup (healthCheck "/d" ⟨"linux", "x64"⟩ fsFull) "binaryPath" =
      some (.str "/d/prebuilds/linux-x64/build/Release/audify.node") ∧
    objLookup (healthCheck "/d" ⟨"linux", "x64"⟩ fsFull) "binaryExists" = some (.bool true) :=
  ⟨((healthCheck_report_shape "/d" ⟨"linux", "x64"⟩ fsFull).1
      "/d/prebuilds/linux-x64/build/Release/audify.node" rfl).2.1,
   (((healthCheck_report_shape "/d" ⟨"linux", "x64"⟩ fsFull).1
      "/d/prebuilds/linux-x64/build/Release/audify.node" rfl).2.2.2 rfl).2⟩

end Audify

namespace Audify

/-- C6: the logging wrapper is outcome-preserving: the wrapped function
returns exactly what the raw function returns and re-raises the identical
error the raw function raises; on success it logs nothing, and on failure
it logs one line naming the wrapped function before re-raising. -/
theorem withErrorHandling_spec {α β : Type} (fn : α → Except String β)
    (functionName : String) (args : α) :
    (withErrorHandling fn functionName args).1 = fn args ∧
    (∀ v, fn args = .ok v → withErrorHandling fn functionName args = (.ok v, [])) ∧
    (∀ e, fn args = .error e →
      withErrorHandling fn functionName args =
        (.error e, [.error ("[Audify-JS-Plus] Error in " ++ functionName ++ ": " ++ e)])) := by
  refine ⟨?_, ?_, ?_⟩
  · cases h : fn args <;> simp [withErrorHandling, h]
  · intro v h
    simp [withErrorHandling, h]
  · intro e h
    simp [withErrorHandling, h]

/-- Witness for C6: the sample callable throws on `0` and the wrapper
re-raises the identical error after logging it under the name of the
callable. -/
theorem withErrorHandling_spec_witness :
    withErrorHandling sampleFn "sampleFn" 0 =
      (.error "boom", [.error ("[Audify-JS-Plus] Error in " ++ "sampleFn" ++ ": " ++ "boom")]) :=
  (withErrorHandling_spec sampleFn "sampleFn" 0).2.2 "boom" rfl

/-- C9 counterexample: on linux with the artifact present but the chmod
call raising `EPERM` (caught at src/postinstall.js lines 69-72), the
permission step reports failure and the mode bits stay `0o644`, not
`0o755`. -/
theorem setBinaryPermissions_eperm_cex :
    fsChmodDenied.fileExists "/x/audify.node" = true ∧
    (setBinaryPermissions "linux" fsChmodDenied "/x/audify.node").1 = false ∧
    (setBinaryPermissions "linux" fsChmodDenied "/x/audify.node").2.mode "/x/audify.node"
      = 0o644 := by
  decide

/-- C9 (amended): on a non-Windows target where the file exists and the
chmod call is permitted, `setBinaryPermissions` reports success and sets
the mode bits of exactly that file to `0o755` (owner read/write/execute,
group/other read/execute), touching nothing else; when the chmod call
raises, the error is caught and it reports failure with the file system
unchanged; on Windows it reports success and leaves the file system
unchanged. -/
theorem setBinaryPermissions_spec (osPlatform : String) (fs : FS) (binaryPath : String) :
    (osPlatform = "win32" → setBinaryPermissions osPlatform fs binaryPath = (true, fs)) ∧
    (osPlatform ≠ "win32" → fs.fileExists binaryPath = true →
      fs.chmodFails binaryPath = false →
      (setBinaryPermissions osPlatform fs binaryPath).1 = true ∧
      (setBinaryPermissions osPlatform fs binaryPath).2.mode binaryPath = 0o755 ∧
      (∀ q, q ≠ binaryPath →
        (setBinaryPermissions osPlatform fs binaryPath).2.mode q = fs.mode q) ∧
      (setBinaryPermissions osPlatform fs binaryPath).2.fileExists = fs.fileExists ∧
      (setBinaryPermissions osPlatform fs binaryPath).2.readable = fs.readable) ∧
    (osPlatform ≠ "win32" → fs.fileExists binaryPath = true →
      fs.chmodFails binaryPath = true →
      setBinaryPermissions osPlatform fs binaryPath = (false, fs)) := by
  refine ⟨?_, ?_, ?_⟩
  · intro h
    simp [setBinaryPermissions, h]
  · intro h he hc
    have hw : (osPlatform == "win32") = false := by
      cases hb : (osPlatform == "win32") with
      | false => rfl
      | true => exact absurd (eq_of_beq hb) h
    refine ⟨?_, ?_, ?_, ?_, ?_⟩
    · simp [setBinaryPermissions, setBinaryPermissionsTry, chmodSync, hw, he, hc]
    · simp [setBinaryPermissions, setBinaryPermissionsTry, chmodSync, hw, he, hc]
    · intro q hq
      simp [setBinaryPermissions, setBinaryPermissionsTry, chmodSync, hw, he, hc, hq]
    · simp [setBinaryPermissions, setBinaryPermissionsTry, chmodSync, hw, he, hc]
    · simp [setBinaryPermissions, setBinaryPermissionsTry, chmodSync, hw, he, hc]
  · intro h he hc
    have hw : (osPlatform == "win32") = false := by
      cases hb : (osPlatform == "win32") with
      | false => rfl
      | true => exact absurd (eq_of_beq hb) h
    simp [setBinaryPermissions, setBinaryPermissionsTry, chmodSync, hw, he, hc]

/-- Witness for the amended C9 on linux with an existing, chmoddable
file. -/
theorem setBinaryPermissions_spec_witness :
    (setBinaryPermissions "linux" fsFull "/x/audify.node").1 = true ∧
    (setBinaryPermissions "linux" fsFull "/x/audify.node").2.mode "/x/audify.node" = 0o755 :=
  ⟨((setBinaryPermissions_spec "linux" fsFull "/x/audify.node").2.1 (by decide) rfl rfl).1,
   ((setBinaryPermissions_spec "linux" fsFull "/x/audify.node").2.1 (by decide) rfl rfl).2.1⟩

theorem fst_objSet_entry (kv : String × JVal) (k : String) (v : JVal) :
    ((if kv.1 == k then (k, v) else kv) : String × JVal).1 = kv.1 := by
  by_cases h : kv.1 = k
  · simp [h]
  · simp [h]

theorem objHas_objSet_iff (o : List (String × JVal)) (k : String) (v : JVal) (j : String) :
    objHas (objSet o k v) j = true ↔ (objHas o j = true ∨ j = k) := by
  by_cases hc : objHas o k = true
  · have hmap : objSet o k v = o.map (fun kv => if kv.1 == k then (k, v) else kv) := by
      unfold objSet
      rw [if_pos hc]
    rw [hmap]
    simp only [objHas, List.any_eq_true, List.mem_map]
    constructor
    · rintro ⟨kv2, ⟨kv1, hkv1, rfl⟩, hj⟩
      rw [fst_objSet_entry] at hj
      exact Or.inl ⟨kv1, hkv1, hj⟩
    · rintro (⟨kv1, hkv1, hj⟩ | rfl)
      · exact ⟨_, ⟨kv1, hkv1, rfl⟩, by rw [fst_objSet_entry]; exact hj⟩
      · rw [objHas, List.any_eq_true] at hc
        obtain ⟨kv1, hkv1, hk1⟩ := hc
        exact ⟨_, ⟨kv1, hkv1, rfl⟩, by rw [fst_objSet_entry]; exact hk1⟩
  · have hmap : objSet o k v = o ++ [(k, v)] := by
      unfold objSet
      rw [if_neg (by simpa using hc)]
    rw [hmap]
    simp only [objHas, List.any_eq_true, List.mem_append, List.mem_singleton]
    constructor
    · rintro ⟨kv1, h1 | rfl, hj⟩
      · exact Or.inl ⟨kv1, h1, hj⟩
      · simp only [beq_iff_eq] at hj
        exact Or.inr hj.symm
    · rintro (⟨kv1, h1, hj⟩ | hjk)
      · exact ⟨kv1, Or.inl h1, hj⟩
      · exact ⟨(k, v), Or.inr rfl, by simp [hjk]⟩

theorem objHas_of_mem (o : List (String × JVal)) (j : String)
    (h : j ∈ o.map (fun kv => kv.1)) : objHas o j = true := by
  simp only [List.mem_map] at h
  obtain ⟨kv, hkv, rfl⟩ := h
  simp only [objHas, List.any_eq_true]
  exact ⟨kv, hkv, by simp⟩

theorem objHas_foldl_objSet (l : List (String × JVal)) (o : List (String × JVal))
    (j : String) (h : objHas o j = true) :
    objHas (l.foldl (fun o kv => objSet o kv.1 kv.2) o) j = true := by
  induction l generalizing o with
  | nil => exact h
  | cons kv l ih =>
    exact ih _ ((objHas_objSet_iff o kv.1 kv.2 j).2 (Or.inl h))

theorem objHas_foldl_objSet_of_mem (l : List (String × JVal)) (o : List (String × JVal))
    (j : String) (h : j ∈ l.map (fun kv => kv.1)) :
    objHas (l.foldl (fun o kv => objSet o kv.1 kv.2) o) j = true := by
  induction l generalizing o with
  | nil => simp at h
  | cons kv l ih =>
    simp only [List.map, List.mem_cons] at h
    by_cases hj : j = kv.1
    · exact objHas_foldl_objSet l _ j ((objHas_objSet_iff o kv.1 kv.2 j).2 (Or.inr hj))
    · rcases h with h | h
      · exact absurd h hj
      · exact ih _ h

theorem objHas_wrapStep (raw : List (String × JVal)) (o : List (String × JVal))
    (k : String) (j : String) (h : objHas o j = true) :
    objHas (wrapStep raw o k) j = true := by
  rcases hm : objLookup raw k with _ | v
  · rw [wrapStep, hm]
    exact h
  · cases v <;> rw [wrapStep, hm]
    case func => exact (objHas_objSet_iff o k JVal.func j).2 (Or.inl h)
    all_goals exact h

theorem objHas_wrapFold (ks : List String) (raw : List (String × JVal))
    (o : List (String × JVal)) (j : String) (h : objHas o j = true) :
    objHas (ks.foldl (wrapStep raw) o) j = true := by
  induction ks generalizing o with
  | nil => exact h
  | cons k ks ih =>
    exact ih _ (objHas_wrapStep raw o k j h)

/-- C8: the public surface built over any raw native module has a key for
each of the five constant tables plus `getPlatformInfo` and `healthCheck`,
and in addition a key for every key of the raw module. -/
theorem audifyExports_keys (raw : List (String × JVal)) :
    (∀ n, n ∈ ["OpusApplication", "RtAudioApi", "RtAudioFormat", "RtAudioStreamFlags",
        "RtAudioErrorType", "getPlatformInfo", "healthCheck"] →
      objHas (audifyExports raw) n = true) ∧
    (∀ k, k ∈ raw.map (fun kv => kv.1) → objHas (audifyExports raw) k = true) := by
  constructor
  · intro n hn
    have hb : objHas (fixedEntries.foldl (fun o kv => objSet o kv.1 kv.2) raw) n = true := by
      apply objHas_foldl_objSet_of_mem
      simp only [List.mem_cons, List.not_mem_nil, or_false] at hn
      rcases hn with rfl | rfl | rfl | rfl | rfl | rfl | rfl <;> decide
    exact objHas_wrapFold _ raw _ n hb
  · intro k hk
    have hb : objHas (fixedEntries.foldl (fun o kv => objSet o kv.1 kv.2) raw) k = true :=
      objHas_foldl_objSet _ raw k (objHas_of_mem raw k hk)
    exact objHas_wrapFold _ raw _ k hb

/-- Witness for C8 on a sample raw module: the surface keeps the raw key
`OpusEncoder` and gains the key `healthCheck`. -/
theorem audifyExports_keys_witness :
    objHas (audifyExports rawSample) "healthCheck" = true ∧
    objHas (audifyExports rawSample) "OpusEncoder" = true :=
  ⟨(audifyExports_keys rawSample).1 "healthCheck" (by decide),
   (audifyExports_keys rawSample).2 "OpusEncoder" (by decide)⟩

end Audify
